import Mathlib

/-!
Shallow embedding of the multi-source GeoIP resolution and refresh engine:
the reader/merge logic of `geoip_reader.py`, the download/refresh logic of
`database_updater.py`, and the per-batch query loop of `app.py`, together
with theorems settling the specification claims about them.
-/

namespace GeoIP

/-! ## Python dictionaries as insertion-ordered association lists

Python `dict` preserves insertion order; assignment to an existing key
overwrites the value in place, assignment to a fresh key appends.
`d1.update(d2)` assigns each binding of `d2` into `d1` in order.
-/

/-- `d[k]`, first binding wins (keys are unique in a real Python dict). -/
def alLookup {α : Type} (d : List (String × α)) (k : String) : Option α :=
  match d.find? (fun p => p.1 == k) with
  | some p => some p.2
  | none => none

/-- `k in d`. -/
def alMem {α : Type} (d : List (String × α)) (k : String) : Bool :=
  d.any (fun p => p.1 == k)

/-- `d[k] = v`: overwrite in place if present, append otherwise. -/
def alInsert {α : Type} (d : List (String × α)) (k : String) (v : α) :
    List (String × α) :=
  if alMem d k then d.map (fun p => if p.1 == k then (k, v) else p)
  else d ++ [(k, v)]

/-- `d1.update(d2)`. -/
def alUpdate {α : Type} (d1 d2 : List (String × α)) : List (String × α) :=
  d2.foldl (fun acc p => alInsert acc p.1 p.2) d1

/-- The keys of `d`, in order. -/
def alKeys {α : Type} (d : List (String × α)) : List String :=
  d.map (fun p => p.1)

/-- Lookup that takes the *last* binding; agrees with `alLookup` on
duplicate-free dictionaries and describes what `alUpdate` keeps. -/
def alLookupLast {α : Type} (d : List (String × α)) (k : String) : Option α :=
  alLookup d.reverse k

/-- `a` if present, else `b`. -/
def alOr {α : Type} (a b : Option α) : Option α :=
  match a with
  | some v => some v
  | none => b

theorem alLookup_nil {α : Type} (k : String) :
    alLookup ([] : List (String × α)) k = none := rfl

theorem alLookup_cons {α : Type} (p : String × α) (d : List (String × α))
    (k : String) :
    alLookup (p :: d) k = if p.1 = k then some p.2 else alLookup d k := by
  by_cases h : p.1 = k
  · simp [alLookup, List.find?, h]
  · have hb : (p.1 == k) = false := by simp [h]
    simp [alLookup, List.find?, hb, h]

theorem alMem_cons {α : Type} (p : String × α) (d : List (String × α))
    (k : String) :
    alMem (p :: d) k = (p.1 == k || alMem d k) := by
  simp [alMem]

theorem alMem_iff_lookup {α : Type} (d : List (String × α)) (k : String) :
    alMem d k = true ↔ ∃ v, alLookup d k = some v := by
  induction d with
  | nil => simp [alMem, alLookup]
  | cons p t ih =>
    rw [alMem_cons, alLookup_cons]
    by_cases h : p.1 = k
    · simp [h]
    · simpa [h] using ih

theorem alLookup_append {α : Type} (d1 d2 : List (String × α)) (k : String) :
    alLookup (d1 ++ d2) k = alOr (alLookup d1 k) (alLookup d2 k) := by
  induction d1 with
  | nil => simp [alLookup, alOr]
  | cons p t ih =>
    rw [List.cons_append, alLookup_cons, alLookup_cons]
    by_cases h : p.1 = k
    · simp [h, alOr]
    · simp [h, ih]

theorem alLookup_not_mem {α : Type} (d : List (String × α)) (k : String)
    (hm : ¬ alMem d k = true) : alLookup d k = none := by
  cases he : alLookup d k with
  | none => rfl
  | some v' => exact absurd ((alMem_iff_lookup d k).mpr ⟨v', he⟩) hm

theorem alLookup_overwrite_ne {α : Type} (d : List (String × α))
    (k k' : String) (v : α) (h : k' ≠ k) :
    alLookup (d.map (fun p => if p.1 == k then (k, v) else p)) k'
      = alLookup d k' := by
  induction d with
  | nil => rfl
  | cons p t ih =>
    simp only [List.map_cons]
    by_cases hp : p.1 = k
    · rw [show ((if p.1 == k then (k, v) else p) : String × α) = (k, v) by
        simp [hp]]
      rw [alLookup_cons, alLookup_cons]
      rw [if_neg (fun hh => h hh.symm), if_neg (fun hh => h (hp ▸ hh).symm)]
      exact ih
    · rw [show ((if p.1 == k then (k, v) else p) : String × α) = p by
        simp [hp]]
      rw [alLookup_cons, alLookup_cons]
      by_cases hpk : p.1 = k'
      · simp [hpk]
      · simp only [hpk, if_false]
        exact ih

theorem alLookup_overwrite_self {α : Type} (d : List (String × α))
    (k : String) (v : α) (hm : alMem d k = true) :
    alLookup (d.map (fun p => if p.1 == k then (k, v) else p)) k = some v := by
  induction d with
  | nil => simp [alMem] at hm
  | cons p t ih =>
    simp only [List.map_cons]
    by_cases hp : p.1 = k
    · rw [show ((if p.1 == k then (k, v) else p) : String × α) = (k, v) by
        simp [hp]]
      rw [alLookup_cons]
      simp
    · rw [show ((if p.1 == k then (k, v) else p) : String × α) = p by
        simp [hp]]
      rw [alLookup_cons]
      simp only [hp, if_false]
      rw [alMem_cons] at hm
      exact ih (by simpa [hp] using hm)

theorem alLookup_insert_self {α : Type} (d : List (String × α)) (k : String)
    (v : α) : alLookup (alInsert d k v) k = some v := by
  unfold alInsert
  by_cases hm : alMem d k
  · rw [if_pos hm]
    exact alLookup_overwrite_self d k v hm
  · rw [if_neg hm, alLookup_append, alLookup_not_mem d k hm]
    simp [alOr, alLookup_cons]

theorem alLookup_insert_ne {α : Type} (d : List (String × α)) (k k' : String)
    (v : α) (h : k' ≠ k) : alLookup (alInsert d k v) k' = alLookup d k' := by
  unfold alInsert
  by_cases hm : alMem d k
  · rw [if_pos hm]
    exact alLookup_overwrite_ne d k k' v h
  · rw [if_neg hm, alLookup_append, alLookup_cons]
    rw [if_neg (fun hh => h hh.symm)]
    cases he : alLookup d k' with
    | none => simp [alOr, alLookup]
    | some v' => simp [alOr]

theorem alLookupLast_nil {α : Type} (k : String) :
    alLookupLast ([] : List (String × α)) k = none := rfl

theorem alLookupLast_cons {α : Type} (p : String × α) (d : List (String × α))
    (k : String) :
    alLookupLast (p :: d) k
      = alOr (alLookupLast d k) (if p.1 = k then some p.2 else none) := by
  unfold alLookupLast
  rw [List.reverse_cons, alLookup_append]
  rw [alLookup_cons]
  by_cases h : p.1 = k
  · simp [h, alLookup]
  · simp [h, alLookup]

theorem alOr_some {α : Type} (v : α) (b : Option α) :
    alOr (some v) b = some v := rfl

theorem alOr_none {α : Type} (b : Option α) : alOr none b = b := rfl

theorem alOr_none_right {α : Type} (a : Option α) : alOr a none = a := by
  cases a <;> rfl

theorem alMem_iff_keys {α : Type} (d : List (String × α)) (k : String) :
    alMem d k = true ↔ k ∈ alKeys d := by
  unfold alMem alKeys
  rw [List.any_eq_true]
  constructor
  · rintro ⟨p, hp, he⟩
    exact List.mem_map.mpr ⟨p, hp, by simpa using he⟩
  · intro h
    rcases List.mem_map.mp h with ⟨p, hp, he⟩
    exact ⟨p, hp, by simp [he]⟩

theorem alLookup_update {α : Type} (d1 d2 : List (String × α)) (k : String) :
    alLookup (alUpdate d1 d2) k = alOr (alLookupLast d2 k) (alLookup d1 k) := by
  induction d2 generalizing d1 with
  | nil => simp [alUpdate, alLookupLast, alLookup, alOr]
  | cons p t ih =>
    show alLookup (alUpdate (alInsert d1 p.1 p.2) t) k = _
    rw [ih, alLookupLast_cons]
    cases ht : alLookupLast t k with
    | some v => rw [alOr_some, alOr_some, alOr_some]
    | none =>
      rw [alOr_none, alOr_none]
      by_cases h : p.1 = k
      · rw [if_pos h, alOr_some, ← h, alLookup_insert_self]
      · rw [if_neg h, alOr_none,
          alLookup_insert_ne d1 p.1 k p.2 (fun hh => h hh.symm)]

theorem alLookupLast_eq_of_nodup {α : Type} (d : List (String × α))
    (hn : (alKeys d).Nodup) (k : String) : alLookupLast d k = alLookup d k := by
  induction d with
  | nil => rfl
  | cons p t ih =>
    rw [alLookupLast_cons, alLookup_cons]
    have hn' : (alKeys t).Nodup := (List.nodup_cons.mp hn).2
    have hpn : p.1 ∉ alKeys t := (List.nodup_cons.mp hn).1
    by_cases h : p.1 = k
    · have hkt : ¬ alMem t k = true := by
        intro hc
        exact hpn (h ▸ (alMem_iff_keys t k).mp hc)
      rw [if_pos h, ih hn', alLookup_not_mem t k hkt, alOr_none, if_pos h]
    · rw [if_neg h, if_neg h, ih hn', alOr_none_right]

theorem alKeys_insert_mem {α : Type} (d : List (String × α)) (k : String)
    (v : α) (hm : alMem d k = true) : alKeys (alInsert d k v) = alKeys d := by
  unfold alInsert
  rw [if_pos hm]
  unfold alKeys
  rw [List.map_map]
  apply List.map_congr_left
  intro p _
  by_cases h : p.1 = k
  · simp [h]
  · simp [h]

theorem alKeys_insert_not_mem {α : Type} (d : List (String × α)) (k : String)
    (v : α) (hm : ¬ alMem d k = true) :
    alKeys (alInsert d k v) = alKeys d ++ [k] := by
  unfold alInsert
  rw [if_neg hm]
  simp [alKeys]

theorem alKeys_insert_nodup {α : Type} (d : List (String × α)) (k : String)
    (v : α) (hn : (alKeys d).Nodup) : (alKeys (alInsert d k v)).Nodup := by
  by_cases hm : alMem d k
  · rw [alKeys_insert_mem d k v hm]; exact hn
  · rw [alKeys_insert_not_mem d k v hm]
    rw [List.nodup_append]
    refine ⟨hn, List.nodup_singleton k, ?_⟩
    intro a ha hb
    have hb' : a = k := by simpa using hb
    exact hm ((alMem_iff_keys d k).mpr (hb' ▸ ha))

theorem alKeys_update_nodup {α : Type} (d1 d2 : List (String × α))
    (hn : (alKeys d1).Nodup) : (alKeys (alUpdate d1 d2)).Nodup := by
  induction d2 generalizing d1 with
  | nil => exact hn
  | cons p t ih =>
    show (alKeys (alUpdate (alInsert d1 p.1 p.2) t)).Nodup
    exact ih _ (alKeys_insert_nodup d1 p.1 p.2 hn)

theorem alLookup_mem_keys {α : Type} (d : List (String × α)) (k : String)
    (v : α) (h : alLookup d k = some v) : k ∈ alKeys d := by
  rw [← alMem_iff_keys, alMem_iff_lookup]
  exact ⟨v, h⟩

theorem alLookup_some_ne_nil {α : Type} (d : List (String × α)) (k : String)
    (v : α) (h : alLookup d k = some v) : d.isEmpty = false := by
  cases d with
  | nil => exact absurd h (by simp [alLookup])
  | cons p t => rfl

/-! `keyedFold f s ks` folds `for key in ks: s[key] = f(s, key)` — the shape
of every source-tracking loop in `GeoIPReader.query`. -/

def keyedFold (f : List (String × α) → String → α)
    (s : List (String × α)) (ks : List String) : List (String × α) :=
  ks.foldl (fun s k => alInsert s k (f s k)) s

theorem keyedFold_nil {α : Type} (f : List (String × α) → String → α)
    (s : List (String × α)) : keyedFold f s [] = s := rfl

theorem keyedFold_cons {α : Type} (f : List (String × α) → String → α)
    (s : List (String × α)) (k : String) (ks : List String) :
    keyedFold f s (k :: ks) = keyedFold f (alInsert s k (f s k)) ks := rfl

theorem keyedFold_lookup_not_mem {α : Type}
    (f : List (String × α) → String → α) (ks : List String)
    (s : List (String × α)) (k : String) (h : k ∉ ks) :
    alLookup (keyedFold f s ks) k = alLookup s k := by
  induction ks generalizing s with
  | nil => rfl
  | cons k' t ih =>
    rw [keyedFold_cons]
    rw [ih _ (fun hc => h (List.mem_cons_of_mem _ hc))]
    exact alLookup_insert_ne s k' k _ (fun he => h (he ▸ List.mem_cons_self k' t))

theorem keyedFold_lookup_append {α : Type}
    (f : List (String × α) → String → α) (a b : List String)
    (s : List (String × α)) (k : String) (hb : k ∉ b) :
    alLookup (keyedFold f s (a ++ k :: b)) k
      = some (f (keyedFold f s a) k) := by
  have : keyedFold f s (a ++ k :: b)
      = keyedFold f (alInsert (keyedFold f s a) k (f (keyedFold f s a) k)) b := by
    unfold keyedFold
    rw [List.foldl_append]
    rfl
  rw [this, keyedFold_lookup_not_mem _ _ _ _ hb, alLookup_insert_self]

/-! ## String helpers

Structural (character-list) versions of the Python string operations the
source uses: `','  in ip`, `s.split(',')`, `s.strip()`. -/

/-- `c in s` (Python substring/char containment for a single char). -/
def containsChar (s : String) (c : Char) : Bool :=
  s.data.contains c

/-- Helper for `splitCommas`: current reversed chunk, remaining chars. -/
def splitCommasAux : List Char → List Char → List String
  | [], acc => [String.mk acc.reverse]
  | c :: cs, acc =>
    if c = ',' then String.mk acc.reverse :: splitCommasAux cs []
    else splitCommasAux cs (c :: acc)

/-- Python `s.split(',')`: always at least one chunk; empty chunks kept. -/
def splitCommas (s : String) : List String :=
  splitCommasAux s.data []

/-- Python `s.strip()`: drop whitespace from both ends. -/
def pyStrip (s : String) : String :=
  String.mk
    (((s.data.dropWhile Char.isWhitespace).reverse.dropWhile
      Char.isWhitespace).reverse)

/-! ## Values and query results

A JSON-ish value type for the entries of a query-result dictionary.
`_database_sources` values are a provider name (string) that is upgraded
to a list of provider names when a second provider contributes the same
field, so both shapes are constructors here; `_database_sources` itself
and `_databases_available` are nested dictionaries. -/

inductive Value where
  | str (s : String)
  | num (n : Int)
  | bool (b : Bool)
  | null
  | strList (ps : List String)
  | dict (d : List (String × Value))

abbrev Dict := List (String × Value)

/-- A Python value that may be `None`, as stored into a dict unfiltered. -/
def optStr : Option String → Value
  | some s => Value.str s
  | none => Value.null

def optNum : Option Int → Value
  | some n => Value.num n
  | none => Value.null

/-! ## Reader responses (`geoip_reader.GeoIPReader`)

The third-party reader libraries are external collaborators; a loaded
reader is modelled as a function from the queried IP string to an optional
response, where `none` stands for a lookup that raises (address not found,
malformed input for that reader, ...) and is caught and ignored by the
source. -/

/-- `geoip2` City response, restricted to the attributes read by
`_query_maxmind`. -/
structure CityResponse where
  country_name : Option String
  country_iso_code : Option String
  city_name : Option String
  /-- names of `response.subdivisions`; `most_specific` is the last one. -/
  subdivision_names : List (Option String)
  postal_code : Option String
  latitude : Option Int
  longitude : Option Int
  time_zone : Option String
  accuracy_radius : Option Int

/-- `geoip2` Country response attributes read by `_query_maxmind`. -/
structure CountryResponse where
  country_name : Option String
  country_iso_code : Option String

/-- `geoip2` ISP response attributes read by `_query_maxmind`. -/
structure IspResponse where
  isp : Option String
  organization : Option String
  autonomous_system_number : Option Int
  autonomous_system_organization : Option String

/-- `geoip2` Connection-Type response attribute read by `_query_maxmind`. -/
structure ConnResponse where
  connection_type : Option String

/-- An `IP2Location` record: the raw values of the attributes that
`_query_ip2location` reads, each an arbitrary value (strings use `"-"` as
the library's placeholder). -/
structure IP2LocRecord where
  country_long : Value
  country_short : Value
  region : Value
  city : Value
  latitude : Value
  longitude : Value
  isp : Value
  domain : Value
  usage_type : Value
  mobile_brand : Value

/-- An `IP2Proxy` `get_all` record as read by `_query_ip2proxy`:
`is_proxy` is an integer, `proxy_type` is fetched with default `"-"`. -/
structure ProxyRecord where
  is_proxy : Int
  proxy_type : Option String

/-- The loaded-reader set: `GeoIPReader.databases`. A `none` entry means
the key is absent from the dict (file missing or failed to load). -/
structure DBSet where
  maxmind_city : Option (String → Option CityResponse)
  maxmind_country : Option (String → Option CountryResponse)
  maxmind_isp : Option (String → Option IspResponse)
  maxmind_connection_type : Option (String → Option ConnResponse)
  ip2location_v4 : Option (String → Option IP2LocRecord)
  ip2location_v6 : Option (String → Option IP2LocRecord)
  ip2proxy : Option (String → Option ProxyRecord)

/-- The dict literal assigned from a City response. -/
def cityFields (r : CityResponse) : Dict :=
  [("country", optStr r.country_name),
   ("country_code", optStr r.country_iso_code),
   ("city", optStr r.city_name),
   ("region", optStr (match r.subdivision_names.getLast? with
     | some n => n
     | none => none)),
   ("postal_code", optStr r.postal_code),
   ("latitude", optNum r.latitude),
   ("longitude", optNum r.longitude),
   ("timezone", optStr r.time_zone),
   ("accuracy_radius", optNum r.accuracy_radius)]

/-- The dict literal assigned from a Country response. -/
def countryFields (r : CountryResponse) : Dict :=
  [("country", optStr r.country_name),
   ("country_code", optStr r.country_iso_code)]

/-- The dict literal assigned from an ISP response. -/
def ispFields (r : IspResponse) : Dict :=
  [("isp", optStr r.isp),
   ("organization", optStr r.organization),
   ("autonomous_system_number", optNum r.autonomous_system_number),
   ("autonomous_system_organization",
     optStr r.autonomous_system_organization)]

/-- One `try: data.update(fields(reader.lookup(ip))) except: pass` stage
of `_query_maxmind`, skipped when the reader is not loaded. -/
def mmTry {ρ : Type} (data : Dict) (rd : Option (String → Option ρ))
    (ip : String) (fields : ρ → Dict) : Dict :=
  match rd with
  | some r =>
    match r ip with
    | some resp => alUpdate data (fields resp)
    | none => data
  | none => data

/-- The City stage with the Country `elif` fallback: Country is consulted
only when the City reader is absent from the dict. -/
def mmCityStage (data : Dict) (db : DBSet) (ip : String) : Dict :=
  match db.maxmind_city with
  | some _ => mmTry data db.maxmind_city ip cityFields
  | none => mmTry data db.maxmind_country ip countryFields

/-- The Connection-Type stage (`data['connection_type'] = ...`). -/
def mmConnStage (data : Dict) (rd : Option (String → Option ConnResponse))
    (ip : String) : Dict :=
  match rd with
  | some r =>
    match r ip with
    | some resp =>
      alInsert data "connection_type" (optStr resp.connection_type)
    | none => data
  | none => data

/-- `GeoIPReader._query_maxmind`: City (or Country as the `elif` fallback),
then ISP, then Connection-Type; a raising lookup leaves `data` untouched. -/
def queryMaxmind (db : DBSet) (ip : String) : Dict :=
  mmConnStage
    (mmTry (mmCityStage [] db ip) db.maxmind_isp ip ispFields)
    db.maxmind_connection_type ip

/-- The dict literal built from an IP2Location record before filtering. -/
def ip2locFields (rec : IP2LocRecord) : Dict :=
  [("country", rec.country_long),
   ("country_code", rec.country_short),
   ("region", rec.region),
   ("city", rec.city),
   ("latitude", rec.latitude),
   ("longitude", rec.longitude),
   ("isp", rec.isp),
   ("domain", rec.domain),
   ("usage_type", rec.usage_type),
   ("mobile_brand", rec.mobile_brand)]

/-- `v is not None and v != '-'`: the placeholder filter applied to the
IP2Location dict. -/
def keepValue : Value → Bool
  | Value.null => false
  | Value.str s => s ≠ "-"
  | _ => true

/-- `GeoIPReader._query_ip2location`: pick the v6 reader when the IP
contains a colon and v6 is loaded, else the v4 reader when loaded; build
the field dict and strip `None`/`"-"` entries. -/
def selectIp2loc (db : DBSet) (ip : String) :
    Option (String → Option IP2LocRecord) :=
  if containsChar ip ':' then
    match db.ip2location_v6 with
    | some rd => some rd
    | none => db.ip2location_v4
  else db.ip2location_v4

def queryIp2location (db : DBSet) (ip : String) : Dict :=
  match selectIp2loc db ip with
  | none => []
  | some rd =>
    match rd ip with
    | none => []
    | some rec => (ip2locFields rec).filter (fun kv => keepValue kv.2)

/-- The recognized proxy-type codes of `_query_ip2proxy`. -/
def proxyTypeCodes : List String := ["VPN", "TOR", "DCH", "PUB", "WEB", "SES"]

/-- Whether code `c` is set by `for ptype in proxy_type.split(','):`. -/
def proxyFlag (pt : String) (c : String) : Bool :=
  if pt ≠ "-" then
    ((splitCommas pt).map pyStrip).contains c
  else false

/-- `GeoIPReader._query_ip2proxy`. -/
def queryIp2proxy (db : DBSet) (ip : String) : Dict :=
  match db.ip2proxy with
  | none => []
  | some rd =>
    match rd ip with
    | none => []
    | some rec =>
      if rec.is_proxy > 0 then
        let pt := rec.proxy_type.getD "-"
        [("is_proxy", Value.bool true),
         ("is_vpn", Value.bool (proxyFlag pt "VPN")),
         ("is_tor", Value.bool (proxyFlag pt "TOR")),
         ("is_datacenter", Value.bool (proxyFlag pt "DCH")),
         ("proxy_type", Value.str pt)]
      else
        [("is_proxy", Value.bool false),
         ("is_vpn", Value.bool false),
         ("is_tor", Value.bool false),
         ("is_datacenter", Value.bool false)]

/-- `GeoIPReader.get_database_status`. -/
def databaseStatus (db : DBSet) : List (String × Bool) :=
  [("maxmind_city", db.maxmind_city.isSome),
   ("maxmind_country", db.maxmind_country.isSome),
   ("maxmind_isp", db.maxmind_isp.isSome),
   ("maxmind_connection_type", db.maxmind_connection_type.isSome),
   ("ip2location_v4", db.ip2location_v4.isSome),
   ("ip2location_v6", db.ip2location_v6.isSome),
   ("ip2proxy", db.ip2proxy.isSome)]

def statusDict (db : DBSet) : Dict :=
  (databaseStatus db).map (fun p => (p.1, Value.bool p.2))

/-- The `essential_fields` allow-list of `GeoIPReader.query`. -/
def essentialFields : List String :=
  ["country", "country_code", "city", "region", "postal_code",
   "isp", "organization", "timezone", "is_proxy", "is_vpn",
   "usage_type", "latitude", "longitude"]

/-- The per-key body of the IP2Location source-combination loop in
`GeoIPReader.query`: combine with an existing entry when the field is
already in `result` and in `database_sources`, else claim it. -/
def combineSourceValue (result : Dict) (s : Dict) (key : String) : Value :=
  if alMem result key ∧ alMem s key then
    let curList := match alLookup s key with
      | some (Value.str p) => [p]
      | some (Value.strList l) => l
      | _ => []
    if curList.contains "IP2Location" then Value.strList curList
    else Value.strList (curList ++ ["IP2Location"])
  else Value.str "IP2Location"

/-- `GeoIPReader.query`. -/
def query (db : DBSet) (ip : String) (full_data : Bool) : Option Dict :=
  let result : Dict := []
  let sources : Dict := []
  let maxmind_data := queryMaxmind db ip
  let result := if maxmind_data.isEmpty then result
    else alUpdate result maxmind_data
  let sources := if maxmind_data.isEmpty then sources
    else if full_data then
      keyedFold (fun _ _ => Value.str "MaxMind") sources (alKeys maxmind_data)
    else sources
  let ip2location_data := queryIp2location db ip
  let sources := if ip2location_data.isEmpty then sources
    else if full_data then
      keyedFold (combineSourceValue result) sources (alKeys ip2location_data)
    else sources
  let result := if ip2location_data.isEmpty then result
    else alUpdate result ip2location_data
  let proxy_data := queryIp2proxy db ip
  let sources := if proxy_data.isEmpty then sources
    else if full_data then
      keyedFold (fun _ _ => Value.str "IP2Proxy") sources (alKeys proxy_data)
    else sources
  let result := if proxy_data.isEmpty then result
    else alUpdate result proxy_data
  if result.isEmpty then none
  else
    let result := if full_data then
        alInsert (alInsert result "_database_sources" (Value.dict sources))
          "_databases_available" (Value.dict (statusDict db))
      else result
    let result := if full_data then result
      else result.filter (fun kv => kv.1 ∈ essentialFields)
    some result

/-- `query(...)[k]` when the result exists. -/
def queryField (db : DBSet) (ip : String) (full_data : Bool) (k : String) :
    Option Value :=
  match query db ip full_data with
  | some r => alLookup r k
  | none => none

/-- The `_database_sources` dict of a full-data query. -/
def querySources (db : DBSet) (ip : String) : Option Dict :=
  match query db ip true with
  | some r =>
    match alLookup r "_database_sources" with
    | some (Value.dict s) => some s
    | _ => none
  | none => none

/-! ## Loading and reloading (`_load_databases` / `reload_databases`)

The on-disk state is modelled per file: `none` — the file does not exist;
`some none` — opening it raises (corrupt/unreadable), which the source
catches and logs, omitting the entry; `some (some rd)` — it opens into
reader `rd`. `IP2Proxy.open` additionally returns a status code checked
against `None`/`0`. -/

structure Disk where
  maxmindDirExists : Bool
  ip2locationDirExists : Bool
  cityFile : Option (Option (String → Option CityResponse))
  countryFile : Option (Option (String → Option CountryResponse))
  ispFile : Option (Option (String → Option IspResponse))
  connTypeFile : Option (Option (String → Option ConnResponse))
  v4File : Option (Option (String → Option IP2LocRecord))
  v6File : Option (Option (String → Option IP2LocRecord))
  /-- file present → open attempt → (status code: `none` is Python `None`,
  reader). An open that raises is `some none`. -/
  proxyFile : Option (Option (Option Int × (String → Option ProxyRecord)))

def loadFile {α : Type} (dirExists : Bool) (f : Option (Option α)) :
    Option α :=
  if dirExists then
    match f with
    | some (some rd) => some rd
    | _ => none
  else none

/-- `GeoIPReader._load_databases`. -/
def loadDatabases (d : Disk) : DBSet :=
  { maxmind_city := loadFile d.maxmindDirExists d.cityFile,
    maxmind_country := loadFile d.maxmindDirExists d.countryFile,
    maxmind_isp := loadFile d.maxmindDirExists d.ispFile,
    maxmind_connection_type := loadFile d.maxmindDirExists d.connTypeFile,
    ip2location_v4 := loadFile d.ip2locationDirExists d.v4File,
    ip2location_v6 := loadFile d.ip2locationDirExists d.v6File,
    ip2proxy :=
      if d.ip2locationDirExists then
        match d.proxyFile with
        | some (some (code, rd)) =>
          if code = none ∨ code = some 0 then some rd else none
        | _ => none
      else none }

/-- `GeoIPReader.reload_databases`: close every reader, clear the dict,
and load afresh from the current on-disk contents. The previous reader
set is discarded unconditionally. -/
def reloadDatabases (_current : DBSet) (d : Disk) : DBSet :=
  loadDatabases d

/-- The empty reader set (`databases.clear()`). -/
def emptyDBSet : DBSet :=
  ⟨none, none, none, none, none, none, none⟩

/-- A disk from which nothing loads. -/
def emptyDisk : Disk :=
  ⟨false, false, none, none, none, none, none, none, none⟩

/-! ## Which readers a query consults (`query` / `_query_*` control flow) -/

inductive Rdr where
  | city
  | country
  | isp
  | connType
  | ip2locV6
  | ip2locV4
  | proxy
deriving DecidableEq

/-- The readers consulted by `GeoIPReader.query(ip)`, in call order:
`_query_maxmind` (City, or Country when City is absent; ISP;
Connection-Type), `_query_ip2location` (v6 when the IP contains a colon
and v6 is loaded, else v4 when loaded), `_query_ip2proxy`. -/
def consultedReaders (db : DBSet) (ip : String) : List Rdr :=
  (match db.maxmind_city with
   | some _ => [Rdr.city]
   | none =>
     match db.maxmind_country with
     | some _ => [Rdr.country]
     | none => [])
  ++ (match db.maxmind_isp with
      | some _ => [Rdr.isp]
      | none => [])
  ++ (match db.maxmind_connection_type with
      | some _ => [Rdr.connType]
      | none => [])
  ++ (if containsChar ip ':' then
        match db.ip2location_v6 with
        | some _ => [Rdr.ip2locV6]
        | none =>
          match db.ip2location_v4 with
          | some _ => [Rdr.ip2locV4]
          | none => []
      else
        match db.ip2location_v4 with
        | some _ => [Rdr.ip2locV4]
        | none => [])
  ++ (match db.ip2proxy with
      | some _ => [Rdr.proxy]
      | none => [])

/-- The fixed consultation order of the spec, readers listed once each. -/
def fixedReaderOrder : List Rdr :=
  [Rdr.city, Rdr.country, Rdr.isp, Rdr.connType,
   Rdr.ip2locV6, Rdr.ip2locV4, Rdr.proxy]

/-! ## Database downloads (`DatabaseUpdater`, `database_updater.py`)

Download configuration constants of `DatabaseUpdater.__init__`. -/

def maxRetries : Nat := 3
def retryDelay : Nat := 5
def minFileSize : Nat := 1000

/-- What the network does on one attempt: a non-200 response (returned
before the temp file is even created), an exception mid-transfer (timeout,
client error, ...) after some bytes were written, or a complete body
delivered as chunks. Bytes are naturals. -/
inductive NetResult where
  | badStatus (code : Nat)
  | interrupted (partialBytes : List Nat)
  | ok (chunks : List (List Nat))

/-- The bytes a completed transfer yields. -/
def netContent : NetResult → List Nat
  | NetResult.ok chunks => chunks.flatten
  | _ => []

/-- Whether one attempt with this network outcome succeeds
(200 response, full body, size at least `min_file_size`). -/
def netOk : NetResult → Bool
  | NetResult.ok chunks => minFileSize ≤ chunks.flatten.length
  | _ => false

/-- The outcome of `download_database_with_progress` for one database:
the live file afterwards, whether this attempt's temp file is left on
disk, success, and the error message if any. -/
structure AttemptResult where
  live : Option (List Nat)
  tempRemains : Option (List Nat)
  success : Bool
  errorMessage : Option String

/-- `DatabaseUpdater.download_database_with_progress`, one attempt.
The attempt writes all received bytes to a fresh per-attempt temp file
(`.tmp.{attempt}`); a non-200 status returns before the temp file is
created; an exception or an undersized body unlinks the temp file; only
a fully written body of at least `min_file_size` bytes is renamed onto
the live path. -/
def downloadAttempt (live : Option (List Nat)) (net : NetResult) :
    AttemptResult :=
  match net with
  | NetResult.badStatus code =>
    ⟨live, none, false, some ("HTTP " ++ toString code)⟩
  | NetResult.interrupted _ =>
    ⟨live, none, false, some "transfer error"⟩
  | NetResult.ok chunks =>
    let content := chunks.flatten
    if content.length < minFileSize then
      ⟨live, none, false, some "File too small"⟩
    else
      ⟨some content, none, true, none⟩

/-- The outcome of `download_database`: the live file afterwards, overall
success, the backoff delays slept between attempts, and how many attempts
were made. -/
structure DownloadResult where
  live : Option (List Nat)
  success : Bool
  delays : List Nat
  attempts : Nat

/-- The retry loop of `download_database` over the remaining attempt
numbers; `nets` gives the network outcome of each attempt. After a failed
attempt that is not the last, sleep `retry_delay * 2 ** (attempt - 1)`
and try again. -/
def downloadLoop (nets : Nat → NetResult) (live : Option (List Nat)) :
    List Nat → DownloadResult
  | [] => ⟨live, false, [], 0⟩
  | attempt :: rest =>
    let r := downloadAttempt live (nets attempt)
    if r.success then ⟨r.live, true, [], 1⟩
    else
      match rest with
      | [] => ⟨r.live, false, [], 1⟩
      | _ :: _ =>
        let restResult := downloadLoop nets r.live rest
        ⟨restResult.live, restResult.success,
          retryDelay * 2 ^ (attempt - 1) :: restResult.delays,
          restResult.attempts + 1⟩

/-- `range(1, self.max_retries + 1)` with `max_retries = 3`. -/
def attemptNumbers : List Nat := [1, 2, 3]

/-- `DatabaseUpdater.download_database`: generating a presigned URL can
fail (no retry in that case); otherwise up to `max_retries` attempts with
exponential backoff between them. -/
def downloadDatabase (urlOk : Bool) (nets : Nat → NetResult)
    (live : Option (List Nat)) : DownloadResult :=
  if urlOk then downloadLoop nets live attemptNumbers
  else ⟨live, false, [], 0⟩

/-- The fixed `AVAILABLE_DATABASES` catalog (logical names). -/
def availableDatabases : List String :=
  ["GeoIP2-City.mmdb", "GeoIP2-Country.mmdb", "GeoIP2-ISP.mmdb",
   "GeoIP2-Connection-Type.mmdb",
   "IP-COUNTRY-REGION-CITY-LATITUDE-LONGITUDE-ISP-DOMAIN-MOBILE-USAGETYPE.BIN",
   "IPV6-COUNTRY-REGION-CITY-LATITUDE-LONGITUDE-ISP-DOMAIN-MOBILE-USAGETYPE.BIN",
   "IP2PROXY-IP-PROXYTYPE-COUNTRY.BIN"]

/-- `DatabaseUpdater.update_all_databases`: download every catalog entry
(each database with its own URL outcome, network oracle and live file),
collecting per-database success. -/
def updateAllDatabases (urlOk : String → Bool)
    (nets : String → Nat → NetResult) (lives : String → Option (List Nat)) :
    List (String × Bool) :=
  availableDatabases.map
    (fun n => (n, (downloadDatabase (urlOk n) (nets n) (lives n)).success))

/-- The externally visible steps of one `update_databases()` cycle. -/
inductive CycleEvent where
  | downloadAll
  | cleanupTempFiles
  | clearCache
  | reloadReader
deriving DecidableEq

/-- `update_databases()` (module-level): run all downloads, clean up temp
files, clear the cache, reload the reader. When `update_all_databases`
raises, the exception handler returns `{}` and none of the later steps
run; otherwise every step runs regardless of per-database failures
(cache clearing and reader reload have their own non-fatal handlers). -/
def updateDatabasesCycle (raised : Bool) (urlOk : String → Bool)
    (nets : String → Nat → NetResult) (lives : String → Option (List Nat)) :
    List (String × Bool) × List CycleEvent :=
  if raised then ([], [CycleEvent.downloadAll])
  else (updateAllDatabases urlOk nets lives,
    [CycleEvent.downloadAll, CycleEvent.cleanupTempFiles,
     CycleEvent.clearCache, CycleEvent.reloadReader])

/-- All downloads of a cycle succeeded. -/
def allSucceeded (results : List (String × Bool)) : Bool :=
  results.all (fun p => p.2)

/-! ## The batch query endpoint (`query_ips`, `app.py`)

IP validity (`ipaddress.ip_address`) and the per-IP reader lookup are
external collaborators here, modelled as parameters; the cache is the
key→dict store of the cache collaborator contract. -/

/-- What `geoip_reader.query(ip, full_data)` does for one IP: a result
dict, a falsy result (not found), or a raised exception. -/
inductive LookupOutcome where
  | found (d : Dict)
  | notFound
  | raised

structure BatchEnv where
  /-- `ipaddress.ip_address(ip)` parses. -/
  valid : String → Bool
  /-- the reader lookup for a cache miss. -/
  reader : String → Bool → LookupOutcome

abbrev Cache := List (String × Dict)

def errInvalidIp : Dict := [("error", Value.str "Invalid IP address")]
def errNotFound : Dict := [("error", Value.str "Not found")]
def errQueryFailed : Dict := [("error", Value.str "Query failed")]

/-- `f"{ip}:{full_data}"`. -/
def cacheKey (ip : String) (full_data : Bool) : String :=
  ip ++ ":" ++ (if full_data then "True" else "False")

/-- One iteration of the `for ip in ip_list:` loop of `query_ips`:
invalid IPs get a per-entry error and touch nothing else; otherwise the
cache is consulted, and a fresh lookup's result (or not-found marker) is
cached before being recorded. -/
def batchStep (env : BatchEnv) (full_data : Bool)
    (acc : List (String × Dict) × Cache) (ip : String) :
    List (String × Dict) × Cache :=
  let (results, cache) := acc
  if ¬ env.valid ip then (alInsert results ip errInvalidIp, cache)
  else
    match alLookup cache (cacheKey ip full_data) with
    | some cached => (alInsert results ip cached, cache)
    | none =>
      match env.reader ip full_data with
      | LookupOutcome.found d =>
        (alInsert results ip d, alInsert cache (cacheKey ip full_data) d)
      | LookupOutcome.notFound =>
        (alInsert results ip errNotFound,
         alInsert cache (cacheKey ip full_data) errNotFound)
      | LookupOutcome.raised => (alInsert results ip errQueryFailed, cache)

/-- The loop over the parsed entry list. -/
def processBatch (env : BatchEnv) (full_data : Bool) (ips : List String)
    (cache : Cache) : List (String × Dict) × Cache :=
  ips.foldl (batchStep env full_data) ([], cache)

/-- `[ip.strip() for ip in ips.split(',')][:settings.query_rate_limit]`. -/
def parsedEntries (ips : String) (limit : Nat) : List String :=
  ((splitCommas ips).map pyStrip).take limit

/-- `query_ips` result construction (authentication and the empty-list
guard aside): parse, truncate to the rate limit, process each entry. -/
def queryIps (env : BatchEnv) (limit : Nat) (ips : String)
    (full_data : Bool) (cache : Cache) : List (String × Dict) × Cache :=
  processBatch env full_data (parsedEntries ips limit) cache

/-! ## Download lemmas -/

theorem downloadAttempt_success (live : Option (List Nat)) (net : NetResult) :
    (downloadAttempt live net).success = netOk net := by
  cases net with
  | badStatus code => rfl
  | interrupted p => rfl
  | ok chunks =>
    simp only [downloadAttempt, netOk]
    by_cases h : chunks.flatten.length < minFileSize
    · rw [if_pos h]
      exact (decide_eq_false (Nat.not_le_of_lt h)).symm
    · rw [if_neg h]
      exact (decide_eq_true (Nat.le_of_not_lt h)).symm

theorem downloadAttempt_temp (live : Option (List Nat)) (net : NetResult) :
    (downloadAttempt live net).tempRemains = none := by
  cases net with
  | badStatus code => rfl
  | interrupted p => rfl
  | ok chunks =>
    simp only [downloadAttempt]
    by_cases h : chunks.flatten.length < minFileSize
    · rw [if_pos h]
    · rw [if_neg h]

theorem downloadAttempt_live_of_fail (live : Option (List Nat))
    (net : NetResult) (h : netOk net = false) :
    (downloadAttempt live net).live = live := by
  cases net with
  | badStatus code => rfl
  | interrupted p => rfl
  | ok chunks =>
    have hlt : chunks.flatten.length < minFileSize := by
      by_contra hc
      rw [show netOk (NetResult.ok chunks)
          = decide (minFileSize ≤ chunks.flatten.length) from rfl,
        decide_eq_true (Nat.le_of_not_lt hc)] at h
      simp at h
    simp only [downloadAttempt]
    rw [if_pos hlt]

theorem downloadAttempt_live_of_ok (live : Option (List Nat))
    (net : NetResult) (h : netOk net = true) :
    (downloadAttempt live net).live = some (netContent net) ∧
      minFileSize ≤ (netContent net).length := by
  cases net with
  | badStatus code => exact absurd h (by simp [netOk])
  | interrupted p => exact absurd h (by simp [netOk])
  | ok chunks =>
    have hle : minFileSize ≤ chunks.flatten.length := by
      have := h
      rw [show netOk (NetResult.ok chunks)
          = decide (minFileSize ≤ chunks.flatten.length) from rfl] at this
      exact of_decide_eq_true this
    refine ⟨?_, hle⟩
    simp only [downloadAttempt, netContent]
    rw [if_neg (Nat.not_lt_of_le hle)]

/-- C3: every download attempt leaves no temp file behind, leaves the
live file untouched on any failure, and changes the live file only to the
fully received, size-validated body on success. -/
theorem download_attempt_atomic (live : Option (List Nat)) (net : NetResult) :
    (downloadAttempt live net).tempRemains = none ∧
    ((downloadAttempt live net).success = false →
      (downloadAttempt live net).live = live) ∧
    ((downloadAttempt live net).success = true →
      (downloadAttempt live net).live = some (netContent net) ∧
      minFileSize ≤ (netContent net).length) := by
  refine ⟨downloadAttempt_temp live net, ?_, ?_⟩
  · intro h
    rw [downloadAttempt_success] at h
    exact downloadAttempt_live_of_fail live net h
  · intro h
    rw [downloadAttempt_success] at h
    exact downloadAttempt_live_of_ok live net h

/-- A network oracle whose first attempt is a permanent `403 Forbidden`
and whose second attempt delivers a full-size body. -/
def netsRetry403 : Nat → NetResult :=
  fun n => if n = 1 then NetResult.badStatus 403
    else NetResult.ok [List.replicate 1000 0]

set_option maxRecDepth 1000000

/-- C5 counterexample: a 403 response is retried — the download succeeds
on the second attempt after a first-attempt 403, so permanent rejections
are not exempt from retry. -/
theorem download_database_retries_403 :
    (downloadDatabase true netsRetry403 none).success = true ∧
    (downloadDatabase true netsRetry403 none).attempts = 2 := by
  constructor <;> rfl

set_option maxRecDepth 512

/-- C5 (amended): with a valid presigned URL, `download_database` makes at
most 3 attempts, sleeps the doubling backoff `5 * 2 ^ i` between attempts,
succeeds exactly when one of the first three network outcomes delivers a
valid body (any failure, permanent or transient, is retried), and leaves
the live file untouched when all attempts fail. -/
theorem download_database_retry_policy (nets : Nat → NetResult)
    (live : Option (List Nat)) :
    (downloadDatabase true nets live).attempts ≤ 3 ∧
    (downloadDatabase true nets live).delays
      = (List.range ((downloadDatabase true nets live).attempts - 1)).map
          (fun i => retryDelay * 2 ^ i) ∧
    (downloadDatabase true nets live).success
      = (netOk (nets 1) || netOk (nets 2) || netOk (nets 3)) ∧
    ((downloadDatabase true nets live).success = false →
      (downloadDatabase true nets live).live = live) := by
  have h1 := downloadAttempt_success live (nets 1)
  have h2 := downloadAttempt_success live (nets 2)
  have h3 := downloadAttempt_success live (nets 3)
  have e : downloadDatabase true nets live
      = downloadLoop nets live [1, 2, 3] := by
    unfold downloadDatabase attemptNumbers
    rw [if_pos rfl]
  rw [e]
  cases hn1 : netOk (nets 1) with
  | true =>
    have : downloadLoop nets live [1, 2, 3]
        = ⟨(downloadAttempt live (nets 1)).live, true, [], 1⟩ := by
      unfold downloadLoop
      rw [if_pos (by rw [h1, hn1])]
    rw [this]
    exact ⟨by simp, rfl, by simp [hn1], fun h => absurd h (by simp)⟩
  | false =>
    have hl1 : (downloadAttempt live (nets 1)).live = live :=
      downloadAttempt_live_of_fail live (nets 1) hn1
    have e1 : downloadLoop nets live [1, 2, 3]
        = ⟨(downloadLoop nets live [2, 3]).live,
            (downloadLoop nets live [2, 3]).success,
            retryDelay * 2 ^ 0 :: (downloadLoop nets live [2, 3]).delays,
            (downloadLoop nets live [2, 3]).attempts + 1⟩ := by
      conv_lhs => unfold downloadLoop
      rw [if_neg (by rw [h1, hn1]; simp), hl1]
    rw [e1]
    cases hn2 : netOk (nets 2) with
    | true =>
      have : downloadLoop nets live [2, 3]
          = ⟨(downloadAttempt live (nets 2)).live, true, [], 1⟩ := by
        unfold downloadLoop
        rw [if_pos (by rw [h2, hn2])]
      rw [this]
      exact ⟨by simp, by simp [List.range_succ], by simp [hn1, hn2],
        fun h => absurd h (by simp)⟩
    | false =>
      have hl2 : (downloadAttempt live (nets 2)).live = live :=
        downloadAttempt_live_of_fail live (nets 2) hn2
      have e2 : downloadLoop nets live [2, 3]
          = ⟨(downloadLoop nets live [3]).live,
              (downloadLoop nets live [3]).success,
              retryDelay * 2 ^ 1 :: (downloadLoop nets live [3]).delays,
              (downloadLoop nets live [3]).attempts + 1⟩ := by
        conv_lhs => unfold downloadLoop
        rw [if_neg (by rw [h2, hn2]; simp), hl2]
      rw [e2]
      cases hn3 : netOk (nets 3) with
      | true =>
        have : downloadLoop nets live [3]
            = ⟨(downloadAttempt live (nets 3)).live, true, [], 1⟩ := by
          unfold downloadLoop
          rw [if_pos (by rw [h3, hn3])]
        rw [this]
        refine ⟨by simp, ?_, by simp [hn1, hn2, hn3],
          fun h => absurd h (by simp)⟩
        show [retryDelay * 2 ^ 0, retryDelay * 2 ^ 1]
          = (List.range (1 + 1 + 1 - 1)).map (fun i => retryDelay * 2 ^ i)
        rfl
      | false =>
        have hl3 : (downloadAttempt live (nets 3)).live = live :=
          downloadAttempt_live_of_fail live (nets 3) hn3
        have : downloadLoop nets live [3]
            = ⟨(downloadAttempt live (nets 3)).live, false, [], 1⟩ := by
          unfold downloadLoop
          rw [if_neg (by rw [h3, hn3]; simp)]
        rw [this, hl3]
        refine ⟨by simp, ?_, by simp [hn1, hn2, hn3], fun _ => rfl⟩
        show [retryDelay * 2 ^ 0, retryDelay * 2 ^ 1]
          = (List.range (1 + 1 + 1 - 1)).map (fun i => retryDelay * 2 ^ i)
        rfl

/-- C9 counterexample: a cycle in which every download fails (no URL can
be generated) still invokes the cache collaborator's `clear_all()` exactly
once, although the cycle was not fully successful. -/
theorem cache_cleared_on_failed_cycle :
    (updateDatabasesCycle false (fun _ => false)
        (fun _ _ => NetResult.badStatus 403) (fun _ => none)).2.count
      CycleEvent.clearCache = 1 ∧
    allSucceeded (updateDatabasesCycle false (fun _ => false)
        (fun _ _ => NetResult.badStatus 403) (fun _ => none)).1 = false := by
  constructor <;> rfl

/-- C9 (amended): `clear_all()` is invoked exactly once on every cycle in
which `update_all_databases` returns (regardless of per-database download
failures) and zero times when it raises. -/
theorem cache_clear_count (raised : Bool) (urlOk : String → Bool)
    (nets : String → Nat → NetResult) (lives : String → Option (List Nat)) :
    (updateDatabasesCycle raised urlOk nets lives).2.count
        CycleEvent.clearCache = if raised then 0 else 1 := by
  cases raised with
  | true => rfl
  | false => rfl

/-! ## Reload (C2) -/

/-- An old generation in which the MaxMind City reader is loaded. -/
def oldGenWithCity : DBSet :=
  ⟨some (fun _ => none), none, none, none, none, none, none⟩

/-- C2 counterexample: when the new generation cannot be built from the
on-disk files, `reload_databases` does *not* keep the old generation
live — a previously available City reader is reported unavailable after
a reload over an empty disk. -/
theorem reload_downgrades_availability :
    alLookup (databaseStatus oldGenWithCity) "maxmind_city" = some true ∧
    alLookup (databaseStatus (reloadDatabases oldGenWithCity emptyDisk))
        "maxmind_city" = some false :=
  ⟨rfl, rfl⟩

/-- C2 (amended): `reload_databases` closes and clears the current
readers and loads afresh from disk, so when every on-disk file fails to
open, every database is unavailable afterwards regardless of what the old
generation had — a refresh-path failure does downgrade availability. -/
theorem reload_availability_from_disk_only (old : DBSet) (d : Disk)
    (hc : d.cityFile = some none) (hco : d.countryFile = some none)
    (hi : d.ispFile = some none) (hct : d.connTypeFile = some none)
    (hv4 : d.v4File = some none) (hv6 : d.v6File = some none)
    (hp : d.proxyFile = some none) :
    databaseStatus (reloadDatabases old d)
      = [("maxmind_city", false), ("maxmind_country", false),
         ("maxmind_isp", false), ("maxmind_connection_type", false),
         ("ip2location_v4", false), ("ip2location_v6", false),
         ("ip2proxy", false)] := by
  unfold reloadDatabases loadDatabases databaseStatus loadFile
  rw [hc, hco, hi, hct, hv4, hv6, hp]
  cases d.maxmindDirExists <;> cases d.ip2locationDirExists <;> rfl

/-- A disk on which every database file exists but fails to open. -/
def corruptDisk : Disk :=
  ⟨true, true, some none, some none, some none, some none, some none,
    some none, some none⟩

theorem reload_availability_from_disk_only_witness :
    corruptDisk.cityFile = some none ∧
    databaseStatus (reloadDatabases oldGenWithCity corruptDisk)
      = [("maxmind_city", false), ("maxmind_country", false),
         ("maxmind_isp", false), ("maxmind_connection_type", false),
         ("ip2location_v4", false), ("ip2location_v6", false),
         ("ip2proxy", false)] :=
  ⟨rfl, reload_availability_from_disk_only oldGenWithCity corruptDisk
    rfl rfl rfl rfl rfl rfl rfl⟩

/-! ## Batch loop lemmas (C6, C10) -/

/-- The dict recorded for entry `ip` by one loop iteration (a function of
the cache, not of the results accumulated so far). -/
def batchStepValue (env : BatchEnv) (full_data : Bool) (c : Cache)
    (ip : String) : Dict :=
  if ¬ env.valid ip then errInvalidIp
  else
    match alLookup c (cacheKey ip full_data) with
    | some cached => cached
    | none =>
      match env.reader ip full_data with
      | LookupOutcome.found d => d
      | LookupOutcome.notFound => errNotFound
      | LookupOutcome.raised => errQueryFailed

/-- The cache after one loop iteration (a function of the cache only). -/
def batchStepCache (env : BatchEnv) (full_data : Bool) (c : Cache)
    (ip : String) : Cache :=
  if ¬ env.valid ip then c
  else
    match alLookup c (cacheKey ip full_data) with
    | some _ => c
    | none =>
      match env.reader ip full_data with
      | LookupOutcome.found d => alInsert c (cacheKey ip full_data) d
      | LookupOutcome.notFound =>
        alInsert c (cacheKey ip full_data) errNotFound
      | LookupOutcome.raised => c

theorem batchStep_characterize (env : BatchEnv) (full_data : Bool)
    (r : List (String × Dict)) (c : Cache) (ip : String) :
    batchStep env full_data (r, c) ip
      = (alInsert r ip (batchStepValue env full_data c ip),
         batchStepCache env full_data c ip) := by
  unfold batchStep batchStepValue batchStepCache
  dsimp only
  by_cases hv : env.valid ip
  · rw [if_neg (by simpa using hv), if_neg (by simpa using hv),
      if_neg (by simpa using hv)]
    cases hc : alLookup c (cacheKey ip full_data) with
    | some cached => rfl
    | none =>
      cases hr : env.reader ip full_data with
      | found d => rfl
      | notFound => rfl
      | raised => rfl
  · rw [if_pos (by simpa using hv), if_pos (by simpa using hv),
      if_pos (by simpa using hv)]

theorem batchFold_lookup_not_mem (env : BatchEnv) (full_data : Bool)
    (l : List String) (r : List (String × Dict)) (c : Cache) (ip : String)
    (h : ip ∉ l) :
    alLookup (l.foldl (batchStep env full_data) (r, c)).1 ip
      = alLookup r ip := by
  induction l generalizing r c with
  | nil => rfl
  | cons a t ih =>
    rw [List.foldl_cons, batchStep_characterize]
    rw [ih _ _ (fun hc => h (List.mem_cons_of_mem _ hc))]
    exact alLookup_insert_ne r a ip _
      (fun he => h (he ▸ List.mem_cons_self a t))

/-- Folding the same entry list over two result accumulators that agree
outside `bad` (with the same cache) yields the same final cache and
results that still agree outside `bad`. -/
theorem batchFold_congr (env : BatchEnv) (full_data : Bool)
    (l : List String) (bad : String) :
    ∀ (r1 r2 : List (String × Dict)) (c : Cache),
      (∀ k, k ≠ bad → alLookup r1 k = alLookup r2 k) →
      (l.foldl (batchStep env full_data) (r1, c)).2
          = (l.foldl (batchStep env full_data) (r2, c)).2 ∧
      (∀ k, k ≠ bad →
        alLookup (l.foldl (batchStep env full_data) (r1, c)).1 k
          = alLookup (l.foldl (batchStep env full_data) (r2, c)).1 k) := by
  induction l with
  | nil => exact fun r1 r2 c h => ⟨rfl, h⟩
  | cons a t ih =>
    intro r1 r2 c h
    rw [List.foldl_cons, List.foldl_cons, batchStep_characterize,
      batchStep_characterize]
    apply ih
    intro k hk
    by_cases hka : k = a
    · rw [hka, alLookup_insert_self, alLookup_insert_self]
    · rw [alLookup_insert_ne _ _ _ _ hka, alLookup_insert_ne _ _ _ _ hka]
      exact h k hk

/-- An `errInvalidIp` entry for an invalid IP survives the rest of the
loop. -/
theorem batchFold_invalid_sticky (env : BatchEnv) (full_data : Bool)
    (l : List String) (bad : String) (hbad : env.valid bad = false) :
    ∀ (r : List (String × Dict)) (c : Cache),
      alLookup r bad = some errInvalidIp →
      alLookup (l.foldl (batchStep env full_data) (r, c)).1 bad
        = some errInvalidIp := by
  induction l with
  | nil => exact fun r c h => h
  | cons a t ih =>
    intro r c h
    rw [List.foldl_cons, batchStep_characterize]
    apply ih
    by_cases hka : a = bad
    · rw [hka, alLookup_insert_self]
      unfold batchStepValue
      rw [if_pos (by simp [hbad])]
    · rw [alLookup_insert_ne _ _ _ _ (fun he => hka he.symm)]
      exact h

/-- C6: an entry whose IP string fails validation yields an
`InvalidInput`-style error for that entry, and every sibling entry's
result and the final cache are exactly as if the invalid entry were
absent from the batch. -/
theorem batch_invalid_entry_isolated (env : BatchEnv) (full_data : Bool)
    (l1 l2 : List String) (bad : String) (cache : Cache)
    (hbad : env.valid bad = false) :
    alLookup (processBatch env full_data (l1 ++ bad :: l2) cache).1 bad
        = some errInvalidIp ∧
    (∀ ip, ip ≠ bad →
      alLookup (processBatch env full_data (l1 ++ bad :: l2) cache).1 ip
        = alLookup (processBatch env full_data (l1 ++ l2) cache).1 ip) ∧
    (processBatch env full_data (l1 ++ bad :: l2) cache).2
        = (processBatch env full_data (l1 ++ l2) cache).2 := by
  unfold processBatch
  rw [List.foldl_append, List.foldl_append]
  rcases hfold : l1.foldl (batchStep env full_data) ([], cache) with ⟨r1, c1⟩
  rw [List.foldl_cons, batchStep_characterize]
  have hval : batchStepValue env full_data c1 bad = errInvalidIp := by
    unfold batchStepValue
    rw [if_pos (by simp [hbad])]
  have hcache : batchStepCache env full_data c1 bad = c1 := by
    unfold batchStepCache
    rw [if_pos (by simp [hbad])]
  rw [hval, hcache]
  have hcongr := batchFold_congr env full_data l2 bad
    (alInsert r1 bad errInvalidIp) r1 c1
    (fun k hk => alLookup_insert_ne r1 bad k errInvalidIp hk)
  refine ⟨?_, hcongr.2, hcongr.1⟩
  exact batchFold_invalid_sticky env full_data l2 bad hbad _ _
    (alLookup_insert_self r1 bad errInvalidIp)

/-- A batch environment for the witnesses: only the literal string
`"bad"` fails validation, and every lookup misses. -/
def envBatch : BatchEnv :=
  ⟨fun s => !(s == "bad"), fun _ _ => LookupOutcome.notFound⟩

theorem batch_invalid_entry_isolated_witness :
    envBatch.valid "bad" = false ∧
    alLookup (processBatch envBatch false
        (["1.1.1.1"] ++ "bad" :: ["2.2.2.2"]) []).1 "bad"
      = some errInvalidIp ∧
    alLookup (processBatch envBatch false
        (["1.1.1.1"] ++ "bad" :: ["2.2.2.2"]) []).1 "2.2.2.2"
      = alLookup (processBatch envBatch false
          (["1.1.1.1"] ++ ["2.2.2.2"]) []).1 "2.2.2.2" := by
  have h := batch_invalid_entry_isolated envBatch false
    ["1.1.1.1"] ["2.2.2.2"] "bad" [] rfl
  exact ⟨rfl, h.1, h.2.1 "2.2.2.2" (by decide)⟩

/-- C10: only the first `query_rate_limit` comma-separated entries are
processed; an IP string appearing only beyond the limit has no key in the
results mapping (and hence no error either). -/
theorem batch_truncated_entries_dropped (env : BatchEnv) (limit : Nat)
    (ips : String) (full_data : Bool) (cache : Cache) (ip : String)
    (_hmem : ip ∈ (splitCommas ips).map pyStrip)
    (hnot : ip ∉ parsedEntries ips limit) :
    alLookup (queryIps env limit ips full_data cache).1 ip = none := by
  unfold queryIps processBatch
  rw [batchFold_lookup_not_mem env full_data _ [] cache ip hnot]
  rfl

theorem batch_truncated_entries_dropped_witness :
    "2.2.2.2" ∈ (splitCommas "1.1.1.1,2.2.2.2").map pyStrip ∧
    "2.2.2.2" ∉ parsedEntries "1.1.1.1,2.2.2.2" 1 ∧
    alLookup (queryIps envBatch 1 "1.1.1.1,2.2.2.2" false []).1 "2.2.2.2"
      = none := by
  refine ⟨by decide, by decide, ?_⟩
  exact batch_truncated_entries_dropped envBatch 1 "1.1.1.1,2.2.2.2" false []
    "2.2.2.2" (by decide) (by decide)

/-! ## Query characterizations and field lemmas (C1, C4, C7) -/

/-- The merged result dict of `query` (before source annotation and
essential-field filtering). -/
def mergedResult (db : DBSet) (ip : String) : Dict :=
  let maxmind_data := queryMaxmind db ip
  let result := if maxmind_data.isEmpty then [] else alUpdate [] maxmind_data
  let ip2location_data := queryIp2location db ip
  let result := if ip2location_data.isEmpty then result
    else alUpdate result ip2location_data
  let proxy_data := queryIp2proxy db ip
  if proxy_data.isEmpty then result else alUpdate result proxy_data

/-- The `database_sources` dict accumulated by a full-data `query`. -/
def mergedSources (db : DBSet) (ip : String) : Dict :=
  let maxmind_data := queryMaxmind db ip
  let result := if maxmind_data.isEmpty then [] else alUpdate [] maxmind_data
  let sources := if maxmind_data.isEmpty then []
    else keyedFold (fun _ _ => Value.str "MaxMind") [] (alKeys maxmind_data)
  let ip2location_data := queryIp2location db ip
  let sources := if ip2location_data.isEmpty then sources
    else keyedFold (combineSourceValue result) sources
      (alKeys ip2location_data)
  let proxy_data := queryIp2proxy db ip
  if proxy_data.isEmpty then sources
  else keyedFold (fun _ _ => Value.str "IP2Proxy") sources (alKeys proxy_data)

theorem query_false_eq (db : DBSet) (ip : String) :
    query db ip false
      = (if (mergedResult db ip).isEmpty then none
         else some ((mergedResult db ip).filter
           (fun kv => kv.1 ∈ essentialFields))) := rfl

theorem query_true_eq (db : DBSet) (ip : String) :
    query db ip true
      = (if (mergedResult db ip).isEmpty then none
         else some (alInsert
           (alInsert (mergedResult db ip) "_database_sources"
             (Value.dict (mergedSources db ip)))
           "_databases_available" (Value.dict (statusDict db)))) := rfl

theorem alLookup_eq_some_mem {α : Type} (d : List (String × α)) (k : String)
    (v : α) (h : alLookup d k = some v) : (k, v) ∈ d := by
  induction d with
  | nil => exact absurd h (by simp [alLookup])
  | cons p t ih =>
    rw [alLookup_cons] at h
    by_cases hp : p.1 = k
    · rw [if_pos hp] at h
      have hv : p.2 = v := Option.some.inj h
      have : p = (k, v) := Prod.ext hp hv
      rw [← this]
      exact List.mem_cons_self p t
    · rw [if_neg hp] at h
      exact List.mem_cons_of_mem p (ih h)

theorem alLookup_filter_essential (d : Dict) (k : String) :
    alLookup (d.filter (fun kv => kv.1 ∈ essentialFields)) k
      = if k ∈ essentialFields then alLookup d k else none := by
  induction d with
  | nil => cases h : decide (k ∈ essentialFields) <;> simp [alLookup]
  | cons p t ih =>
    rw [List.filter_cons]
    by_cases hp : p.1 ∈ essentialFields
    · rw [decide_eq_true hp, if_pos rfl, alLookup_cons, alLookup_cons]
      by_cases hpk : p.1 = k
      · rw [if_pos hpk, if_pos hpk, if_pos (hpk ▸ hp)]
      · rw [if_neg hpk, if_neg hpk, ih]
    · rw [decide_eq_false hp, if_neg (by simp), alLookup_cons, ih]
      by_cases hpk : p.1 = k
      · rw [if_pos hpk, if_neg (hpk ▸ hp), if_neg (hpk ▸ hp)]
      · rw [if_neg hpk]

theorem alKeys_filter_essential (d : Dict) :
    alKeys (d.filter (fun kv => kv.1 ∈ essentialFields))
      ⊆ essentialFields := by
  intro k hk
  rcases List.mem_map.mp hk with ⟨kv, hkv, hkeq⟩
  have := (List.mem_filter.mp hkv).2
  rw [← hkeq]
  exact of_decide_eq_true this

/-- C7: with `full_data=false` every key of the returned result is on the
fixed essential-field allow-list, and the source-tracking metadata keys
are absent. -/
theorem query_nonfull_allowlist (db : DBSet) (ip : String) (r : Dict)
    (h : query db ip false = some r) :
    alKeys r ⊆ essentialFields ∧
    "_database_sources" ∉ alKeys r ∧
    "_databases_available" ∉ alKeys r := by
  rw [query_false_eq] at h
  by_cases he : (mergedResult db ip).isEmpty
  · rw [if_pos he] at h
    exact absurd h (by simp)
  · rw [if_neg he] at h
    have hr : r = (mergedResult db ip).filter
        (fun kv => kv.1 ∈ essentialFields) := (Option.some.inj h).symm
    rw [hr]
    refine ⟨alKeys_filter_essential _, ?_, ?_⟩
    · intro hmem
      exact absurd (alKeys_filter_essential _ hmem) (by decide)
    · intro hmem
      exact absurd (alKeys_filter_essential _ hmem) (by decide)

/-- A reader set with only the IP2Proxy database loaded, reporting a
non-proxy record for every IP. -/
def dbProxyOnly : DBSet :=
  ⟨none, none, none, none, none, none,
    some (fun _ => some ⟨0, none⟩)⟩

theorem query_nonfull_allowlist_witness :
    query dbProxyOnly "1.2.3.4" false
      = some [("is_proxy", Value.bool false), ("is_vpn", Value.bool false)] ∧
    "_database_sources" ∉ alKeys
      [("is_proxy", Value.bool false), ("is_vpn", Value.bool false)] := by
  refine ⟨by rfl, ?_⟩
  exact (query_nonfull_allowlist dbProxyOnly "1.2.3.4" _ (by rfl)).2.1

/-- A City-only reader set whose response has no city name. -/
def dbNullCity : DBSet :=
  ⟨some (fun _ => some
      ⟨some "Xland", some "XL", none, [], none, none, none, none, none⟩),
    none, none, none, none, none, none⟩

/-- C4 counterexample: a field present in a returned `QueryResult` can be
null — MaxMind contributions are not filtered, so a City response with a
missing city name yields a result whose `city` entry is null. -/
theorem query_result_contains_null_field :
    queryField dbNullCity "1.2.3.4" false "city" = some Value.null := by
  rfl

/-- C4 (amended): only the IP2Location contribution is filtered — every
field of `_query_ip2location`'s dict is non-null and not the `"-"`
placeholder; MaxMind and IP2Proxy contributions are merged unfiltered. -/
theorem ip2location_contribution_filtered (db : DBSet) (ip k : String)
    (v : Value) (h : alLookup (queryIp2location db ip) k = some v) :
    v ≠ Value.null ∧ v ≠ Value.str "-" := by
  unfold queryIp2location at h
  split at h
  · exact absurd h (by simp [alLookup])
  · split at h
    · exact absurd h (by simp [alLookup])
    · have hmem := alLookup_eq_some_mem _ _ _ h
      have hkeep : keepValue v = true := (List.mem_filter.mp hmem).2
      constructor
      · intro he
        rw [he] at hkeep
        exact absurd hkeep (by simp [keepValue])
      · intro he
        rw [he] at hkeep
        exact absurd hkeep (by simp [keepValue])

/-- An IP2Location record whose fields are all placeholders except the
country name. -/
def recPlaceholders : IP2LocRecord :=
  ⟨Value.str "Y", Value.str "-", Value.str "-", Value.str "-",
   Value.str "-", Value.str "-", Value.str "-", Value.str "-",
   Value.str "-", Value.str "-"⟩

def dbIp2locOnly : DBSet :=
  ⟨none, none, none, none, some (fun _ => some recPlaceholders), none, none⟩

theorem ip2location_contribution_filtered_witness :
    alLookup (queryIp2location dbIp2locOnly "1.2.3.4") "country"
      = some (Value.str "Y") ∧
    Value.str "Y" ≠ Value.null ∧ Value.str "Y" ≠ Value.str "-" :=
  ⟨rfl, ip2location_contribution_filtered dbIp2locOnly "1.2.3.4" "country"
    (Value.str "Y") rfl⟩

/-! ## Consultation order (C8) -/

/-- A reader set with only the IP2Location IPv4 database loaded. -/
def dbV4Only : DBSet :=
  ⟨none, none, none, none, some (fun _ => none), none, none⟩

/-- C8 counterexample: for an IPv6 address with no v6 reader loaded, the
IPv4 IP2Location reader is consulted — reader selection is not purely by
address family. -/
theorem ipv6_address_consults_v4_reader :
    containsChar "::1" ':' = true ∧
    consultedReaders dbV4Only "::1" = [Rdr.ip2locV4] :=
  ⟨rfl, rfl⟩

/-- C8 (amended): `query` consults the loaded readers in the fixed order
City (or Country exactly when City is absent), ISP, Connection-Type,
IP2Location, IP2Proxy; the v6 IP2Location reader is used exactly when the
IP contains a colon and v6 is loaded, and otherwise the v4 reader is used
whenever loaded — even for IPv6 addresses when v6 is absent. -/
theorem consulted_readers_order (db : DBSet) (ip : String) :
    List.Sublist (consultedReaders db ip) fixedReaderOrder ∧
    (Rdr.city ∈ consultedReaders db ip ↔ db.maxmind_city.isSome = true) ∧
    (Rdr.country ∈ consultedReaders db ip ↔
      (db.maxmind_city = none ∧ db.maxmind_country.isSome = true)) ∧
    (Rdr.isp ∈ consultedReaders db ip ↔ db.maxmind_isp.isSome = true) ∧
    (Rdr.connType ∈ consultedReaders db ip ↔
      db.maxmind_connection_type.isSome = true) ∧
    (Rdr.ip2locV6 ∈ consultedReaders db ip ↔
      (containsChar ip ':' = true ∧ db.ip2location_v6.isSome = true)) ∧
    (Rdr.ip2locV4 ∈ consultedReaders db ip ↔
      (db.ip2location_v4.isSome = true ∧
        ¬ (containsChar ip ':' = true ∧ db.ip2location_v6.isSome = true))) ∧
    (Rdr.proxy ∈ consultedReaders db ip ↔ db.ip2proxy.isSome = true) := by
  rcases db with ⟨c, co, i, ct, v4, v6, px⟩
  cases c <;> cases co <;> cases i <;> cases ct <;> cases v4 <;> cases v6 <;>
    cases px <;> cases hc : containsChar ip ':' <;>
      simp [consultedReaders, fixedReaderOrder, hc] <;> decide

/-! ## Merge precedence (C1) -/

theorem mmTry_keys_nodup {ρ : Type} (data : Dict)
    (rd : Option (String → Option ρ)) (ip : String) (fields : ρ → Dict)
    (hd : (alKeys data).Nodup) : (alKeys (mmTry data rd ip fields)).Nodup := by
  unfold mmTry
  split
  · split
    · exact alKeys_update_nodup _ _ hd
    · exact hd
  · exact hd

theorem mmConnStage_keys_nodup (data : Dict)
    (rd : Option (String → Option ConnResponse)) (ip : String)
    (hd : (alKeys data).Nodup) : (alKeys (mmConnStage data rd ip)).Nodup := by
  unfold mmConnStage
  split
  · split
    · exact alKeys_insert_nodup _ _ _ hd
    · exact hd
  · exact hd

theorem mmCityStage_keys_nodup (data : Dict) (db : DBSet) (ip : String)
    (hd : (alKeys data).Nodup) : (alKeys (mmCityStage data db ip)).Nodup := by
  unfold mmCityStage
  split
  · exact mmTry_keys_nodup _ _ _ _ hd
  · exact mmTry_keys_nodup _ _ _ _ hd

theorem queryMaxmind_keys_nodup (db : DBSet) (ip : String) :
    (alKeys (queryMaxmind db ip)).Nodup := by
  unfold queryMaxmind
  exact mmConnStage_keys_nodup _ _ _
    (mmTry_keys_nodup _ _ _ _
      (mmCityStage_keys_nodup _ _ _ List.nodup_nil))

theorem queryIp2location_keys_nodup (db : DBSet) (ip : String) :
    (alKeys (queryIp2location db ip)).Nodup := by
  unfold queryIp2location
  split
  · exact List.nodup_nil
  · split
    · exact List.nodup_nil
    · rename_i rec _
      have hsub : List.Sublist
          (alKeys ((ip2locFields rec).filter (fun kv => keepValue kv.2)))
          (alKeys (ip2locFields rec)) :=
        List.Sublist.map _ (List.filter_sublist _)
      have hkeys : alKeys (ip2locFields rec)
          = ["country", "country_code", "region", "city", "latitude",
             "longitude", "isp", "domain", "usage_type", "mobile_brand"] := rfl
      have hnd : (alKeys (ip2locFields rec)).Nodup := by
        rw [hkeys]
        decide
      exact List.Nodup.sublist hsub hnd

theorem queryIp2proxy_country_not_mem (db : DBSet) (ip : String) :
    "country" ∉ alKeys (queryIp2proxy db ip) := by
  unfold queryIp2proxy
  split
  · simp [alKeys]
  · split
    · simp [alKeys]
    · split
      · simp [alKeys]
      · simp [alKeys]

theorem alLookupLast_not_mem {α : Type} (d : List (String × α)) (k : String)
    (h : k ∉ alKeys d) : alLookupLast d k = none := by
  unfold alLookupLast
  apply alLookup_not_mem
  intro hm
  apply h
  have hrev := (alMem_iff_keys d.reverse k).mp hm
  have hkeys : alKeys d.reverse = (alKeys d).reverse := by
    simp [alKeys]
  rw [hkeys] at hrev
  exact List.mem_reverse.mp hrev

theorem mem_nodup_split (ks : List String) (k : String) (hmem : k ∈ ks)
    (hn : ks.Nodup) : ∃ a b, ks = a ++ k :: b ∧ k ∉ a ∧ k ∉ b := by
  rcases List.append_of_mem hmem with ⟨a, b, rfl⟩
  rw [List.nodup_append] at hn
  refine ⟨a, b, rfl, ?_, (List.nodup_cons.mp hn.2.1).1⟩
  intro hka
  exact hn.2.2 hka (List.mem_cons_self k b)

theorem keyedFold_const_lookup_mem {α : Type} (v : α) (ks : List String)
    (s : List (String × α)) (k : String) (hmem : k ∈ ks) (hn : ks.Nodup) :
    alLookup (keyedFold (fun _ _ => v) s ks) k = some v := by
  rcases mem_nodup_split ks k hmem hn with ⟨a, b, rfl, _, hb⟩
  exact keyedFold_lookup_append _ a b s k hb

theorem combineSourceValue_str (result s : Dict) (key p : String)
    (hres : alMem result key = true)
    (hs : alLookup s key = some (Value.str p))
    (hp : (([p] : List String).contains "IP2Location") = false) :
    combineSourceValue result s key = Value.strList [p, "IP2Location"] := by
  unfold combineSourceValue
  rw [if_pos ⟨hres, (alMem_iff_lookup s key).mpr ⟨_, hs⟩⟩, hs]
  dsimp only
  rw [hp]
  rfl

/-- C1: when MaxMind and IP2Location both contribute a `country` value,
the merged result carries the IP2Location value (later source wins), and
the full-data per-field source map lists both providers in contribution
order. -/
theorem merge_precedence_country (db : DBSet) (ip : String) (v1 v2 : Value)
    (hm : alLookup (queryMaxmind db ip) "country" = some v1)
    (hl : alLookup (queryIp2location db ip) "country" = some v2) :
    queryField db ip false "country" = some v2 ∧
    (querySources db ip).bind (fun s => alLookup s "country")
      = some (Value.strList ["MaxMind", "IP2Location"]) := by
  have hmmne : (queryMaxmind db ip).isEmpty = false :=
    alLookup_some_ne_nil _ _ _ hm
  have hlne : (queryIp2location db ip).isEmpty = false :=
    alLookup_some_ne_nil _ _ _ hl
  have hnm : (alKeys (queryMaxmind db ip)).Nodup := queryMaxmind_keys_nodup db ip
  have hnl : (alKeys (queryIp2location db ip)).Nodup :=
    queryIp2location_keys_nodup db ip
  -- the merged result carries v2 for "country"
  have hlk2 : alLookup (alUpdate (alUpdate [] (queryMaxmind db ip))
      (queryIp2location db ip)) "country" = some v2 := by
    rw [alLookup_update, alLookupLast_eq_of_nodup _ hnl, hl, alOr_some]
  have hmr : alLookup (mergedResult db ip) "country" = some v2 := by
    unfold mergedResult
    simp only [hmmne, hlne, Bool.false_eq_true, if_false]
    cases hp : (queryIp2proxy db ip).isEmpty with
    | true =>
      rw [if_pos rfl]
      exact hlk2
    | false =>
      rw [if_neg (by simp)]
      rw [alLookup_update,
        alLookupLast_not_mem _ _ (queryIp2proxy_country_not_mem db ip),
        alOr_none]
      exact hlk2
  have hresne : (mergedResult db ip).isEmpty = false :=
    alLookup_some_ne_nil _ _ _ hmr
  constructor
  · -- non-full result
    unfold queryField
    rw [query_false_eq]
    rw [if_neg (by rw [hresne]; simp)]
    dsimp only
    rw [alLookup_filter_essential, if_pos (by decide)]
    exact hmr
  · -- full-data source map
    have hcm : "country" ∈ alKeys (queryMaxmind db ip) :=
      alLookup_mem_keys _ _ _ hm
    have hcl : "country" ∈ alKeys (queryIp2location db ip) :=
      alLookup_mem_keys _ _ _ hl
    have hs1 : alLookup (keyedFold (fun _ _ => Value.str "MaxMind") []
        (alKeys (queryMaxmind db ip))) "country" = some (Value.str "MaxMind") :=
      keyedFold_const_lookup_mem _ _ _ _ hcm hnm
    have hmemres1 : alMem (alUpdate [] (queryMaxmind db ip)) "country" = true := by
      rw [alMem_iff_lookup]
      refine ⟨v1, ?_⟩
      rw [alLookup_update, alLookupLast_eq_of_nodup _ hnm, hm, alOr_some]
    rcases mem_nodup_split _ _ hcl hnl with ⟨a, b, hab, ha, hb⟩
    have hsa : alLookup (keyedFold (combineSourceValue
        (alUpdate [] (queryMaxmind db ip)))
        (keyedFold (fun _ _ => Value.str "MaxMind") []
          (alKeys (queryMaxmind db ip))) a) "country"
        = some (Value.str "MaxMind") := by
      rw [keyedFold_lookup_not_mem
        (combineSourceValue (alUpdate [] (queryMaxmind db ip))) a
        (keyedFold (fun _ _ => Value.str "MaxMind") []
          (alKeys (queryMaxmind db ip))) "country" ha]
      exact hs1
    have hcomb : combineSourceValue (alUpdate [] (queryMaxmind db ip))
        (keyedFold (combineSourceValue (alUpdate [] (queryMaxmind db ip)))
          (keyedFold (fun _ _ => Value.str "MaxMind") []
            (alKeys (queryMaxmind db ip))) a) "country"
        = Value.strList ["MaxMind", "IP2Location"] :=
      combineSourceValue_str _ _ _ "MaxMind" hmemres1 hsa (by decide)
    have hs2 : alLookup (keyedFold (combineSourceValue
        (alUpdate [] (queryMaxmind db ip)))
        (keyedFold (fun _ _ => Value.str "MaxMind") []
          (alKeys (queryMaxmind db ip)))
        (alKeys (queryIp2location db ip))) "country"
        = some (Value.strList ["MaxMind", "IP2Location"]) := by
      rw [hab, keyedFold_lookup_append _ a b _ _ hb, hcomb]
    have hs3 : alLookup (mergedSources db ip) "country"
        = some (Value.strList ["MaxMind", "IP2Location"]) := by
      unfold mergedSources
      simp only [hmmne, hlne, Bool.false_eq_true, if_false]
      cases hp : (queryIp2proxy db ip).isEmpty with
      | true =>
        rw [if_pos rfl]
        exact hs2
      | false =>
        rw [if_neg (by simp)]
        rw [keyedFold_lookup_not_mem (fun _ _ => Value.str "IP2Proxy")
          (alKeys (queryIp2proxy db ip))
          (keyedFold (combineSourceValue (alUpdate [] (queryMaxmind db ip)))
            (keyedFold (fun _ _ => Value.str "MaxMind") []
              (alKeys (queryMaxmind db ip)))
            (alKeys (queryIp2location db ip))) "country"
          (queryIp2proxy_country_not_mem db ip)]
        exact hs2
    have hlkup : alLookup (alInsert (alInsert (mergedResult db ip)
        "_database_sources" (Value.dict (mergedSources db ip)))
        "_databases_available" (Value.dict (statusDict db)))
        "_database_sources" = some (Value.dict (mergedSources db ip)) := by
      rw [alLookup_insert_ne _ _ _ _ (by decide)]
      exact alLookup_insert_self _ _ _
    unfold querySources
    rw [query_true_eq, if_neg (by rw [hresne]; simp)]
    dsimp only
    rw [hlkup]
    exact hs3

/-- A MaxMind City reader returning country `X` and an IP2Location reader
returning country `Y` for every IP. -/
def dbTwoProviders : DBSet :=
  ⟨some (fun _ => some
      ⟨some "X", some "XC", none, [], none, none, none, none, none⟩),
    none, none, none,
    some (fun _ => some
      ⟨Value.str "Y", Value.str "YC", Value.str "-", Value.str "-",
       Value.str "-", Value.str "-", Value.str "-", Value.str "-",
       Value.str "-", Value.str "-"⟩),
    none, none⟩

theorem merge_precedence_country_witness :
    alLookup (queryMaxmind dbTwoProviders "1.2.3.4") "country"
      = some (Value.str "X") ∧
    alLookup (queryIp2location dbTwoProviders "1.2.3.4") "country"
      = some (Value.str "Y") ∧
    queryField dbTwoProviders "1.2.3.4" false "country"
      = some (Value.str "Y") ∧
    (querySources dbTwoProviders "1.2.3.4").bind
        (fun s => alLookup s "country")
      = some (Value.strList ["MaxMind", "IP2Location"]) := by
  have h := merge_precedence_country dbTwoProviders "1.2.3.4"
    (Value.str "X") (Value.str "Y") rfl rfl
  exact ⟨rfl, rfl, h.1, h.2⟩

end GeoIP
